import Mathlib

/-!
# Verification of the gcp-job-runner deploy/execute orchestration core

This file gives a shallow embedding of the orchestration engine of the
`gcp-job-runner` repository and proves properties of it:

* `src/cloud/execution-poller.ts` — the polling state machine (`pollExecution`);
* `src/cloud/log-streamer.ts` — the log-tail reconnect logic and batch sorting;
* `src/cloud/deploy.ts` — `prepareImage` (build skip/cleanup) and
  `createOrUpdateJob` (reconcile);
* the directory hashing routine (`hashDirectory`) used for content-addressed
  image tags.

External collaborators (the gcloud CLI, Docker, the Cloud Logging API, the
file system) are modelled as oracles: each embedded function takes the
outcomes of its external calls as explicit inputs, and records the calls it
makes as an explicit effect trace.
-/

/-! ## Execution poller (`src/cloud/execution-poller.ts`)

`pollExecution` runs an infinite loop of `check` invocations (one per timer
tick).  Each invocation either throws inside `gcloudJson` (a transport error)
or yields a response that `parseExecution` turns into an optional execution
value.  We model one `check` invocation as a step of a state machine over the
mutable state `{consecutiveErrors, hasStarted, hasReportedStarting}`, feed it
a finite list of poll events, and observe the notifications it emits and the
promise outcome (resolve/reject).  The abort-signal path is not modelled:
none of the verified claims concerns cancellation. -/

/-- A `{type, state, message?}` condition of a Cloud Run execution. -/
structure ExecCondition where
  type : String
  state : String
  message : Option String := none
deriving DecidableEq, Repr

/-- Normalized execution data (`GcloudExecution` in `src/cloud/types`). -/
structure GcloudExecution where
  name : String := ""
  uid : String := ""
  startTime : Option String := none
  completionTime : Option String := none
  conditions : Option (List ExecCondition) := none
  succeededCount : Option Int := none
  failedCount : Option Int := none
  logUri : Option String := none
deriving DecidableEq, Repr

/-- What one poll iteration sees: either `gcloudJson` throws (`throwErr`),
or it returns and `parseExecution` produces `r` (`none` models an
empty/unparseable response). -/
inductive PollEvent where
  | throwErr : PollEvent
  | resp : Option GcloudExecution → PollEvent
deriving DecidableEq, Repr

/-- The mutable loop state of `pollExecution`. -/
structure PollState where
  consecutiveErrors : Nat := 0
  hasStarted : Bool := false
  hasReportedStarting : Bool := false
deriving DecidableEq, Repr

/-- Observable notifications of one poll iteration: the two
`onStatusChange` messages and the `consola.warn` on a caught error. -/
inductive PollEmission where
  | running : PollEmission
  | starting : PollEmission
  | warnPollError : PollEmission
deriving DecidableEq, Repr

/-- How the returned promise settles. -/
inductive PollOutcome where
  | resolved : Bool → PollOutcome
  | pollFailure : PollOutcome
deriving DecidableEq, Repr

/-- The initial loop state (`consecutiveErrors = 0`, both flags false). -/
def initPollState : PollState := {}

/-- The `catch` block of `check`: increment `consecutiveErrors`, warn on the
first three, reject once the count reaches 10. -/
def pollCatch (s : PollState) : PollState × List PollEmission × Option PollOutcome :=
  let n := s.consecutiveErrors + 1
  let ems := if n ≤ 3 then [PollEmission.warnPollError] else []
  if n ≥ 10 then ({ s with consecutiveErrors := n }, ems, some PollOutcome.pollFailure)
  else ({ s with consecutiveErrors := n }, ems, none)

/-- The status-transition block of `check` (lines 73–84 of the source).
Returns the updated state, the emitted notifications, and whether the block
threw: when `onStatusChange` is omitted (`hasCallback = false`) the
"Container starting" branch calls the missing callback without a guard,
raising a `TypeError` — note that `hasReportedStarting` has already been set
by then.  The "Running" branch uses optional chaining and never throws. -/
def statusBlock (hasCallback : Bool) (s : PollState) (ex : GcloudExecution) :
    PollState × List PollEmission × Bool :=
  if s.hasStarted then (s, [], false)
  else if ex.startTime.isSome then
    ({ s with hasStarted := true },
      if hasCallback then [PollEmission.running] else [], false)
  else if s.hasReportedStarting then (s, [], false)
  else
    let s' := { s with hasReportedStarting := true }
    if hasCallback then (s', [PollEmission.starting], false)
    else (s', [], true)

/-- The terminal-state checks of `check` (lines 86–104): a present
`completionTime` resolves with `succeededCount > 0`; otherwise the first
"Completed" condition resolves by its state; otherwise keep polling. -/
def terminalOf (ex : GcloudExecution) : Option PollOutcome :=
  if ex.completionTime.isSome then
    some (PollOutcome.resolved (decide (0 < ex.succeededCount.getD 0)))
  else
    match (ex.conditions.getD []).find? (fun c => c.type == "Completed") with
    | some c =>
        if c.state == "CONDITION_SUCCEEDED" then some (PollOutcome.resolved true)
        else if c.state == "CONDITION_FAILED" then some (PollOutcome.resolved false)
        else none
    | none => none

/-- One full `check` invocation.  On a successful `gcloudJson` call the
consecutive-error counter is reset *before* the response is examined; a
`TypeError` thrown by the status block lands in the same `catch` as a
transport error. -/
def pollCheck (hasCallback : Bool) (s : PollState) (e : PollEvent) :
    PollState × List PollEmission × Option PollOutcome :=
  match e with
  | PollEvent.throwErr => pollCatch s
  | PollEvent.resp r =>
    let s0 := { s with consecutiveErrors := 0 }
    match r with
    | none => (s0, [], none)
    | some ex =>
      match statusBlock hasCallback s0 ex with
      | (s1, ems, true) =>
          let (s2, ems2, out) := pollCatch s1
          (s2, ems ++ ems2, out)
      | (s1, ems, false) => (s1, ems, terminalOf ex)

/-- Run the poll loop over a finite list of poll events.  The loop stops at
the first event that settles the promise; later events are never processed
(no further timer is scheduled). -/
def pollExecution (hasCallback : Bool) :
    PollState → List PollEvent → PollState × List PollEmission × Option PollOutcome
  | s, [] => (s, [], none)
  | s, e :: es =>
    match pollCheck hasCallback s e with
    | (s', ems, some out) => (s', ems, some out)
    | (s', ems, none) =>
      ((pollExecution hasCallback s' es).1,
        ems ++ (pollExecution hasCallback s' es).2.1,
        (pollExecution hasCallback s' es).2.2)

/-! ## Log streamer reconnect logic (`src/cloud/log-streamer.ts`)

The `LogStreamer` class owns a live-tail connection.  We model its mutable
fields `{stopped, stream, reconnectTimer, consecutiveFailures}` and the four
events that drive them: a stream `error` event, the reconnect timer firing,
a `data` batch arriving, and a `stop()` call.  `connect()` is modelled as
succeeding (the synchronous-throw path of `tailEntries` also routes into
`scheduleReconnect` and is not needed by the verified claims). -/

/-- Mutable fields of `LogStreamer`: `streamOpen` models `stream !== null`,
`reconnectTimer` models `reconnectTimer !== null`. -/
structure StreamerState where
  stopped : Bool := false
  streamOpen : Bool := true
  reconnectTimer : Bool := false
  consecutiveFailures : Nat := 0
deriving DecidableEq, Repr

/-- Events delivered to the streamer. -/
inductive StreamEvent where
  | errorEvt : StreamEvent
  | timerFire : StreamEvent
  | dataEvt : StreamEvent
  | stopEvt : StreamEvent
deriving DecidableEq, Repr

/-- Console output of the streamer relevant to the reconnect cap. -/
inductive StreamEmission where
  | warnStreamError : StreamEmission
  | infoReconnecting : StreamEmission
  | warnGivingUp : StreamEmission
deriving DecidableEq, Repr

/-- `LogStreamer.scheduleReconnect`: bail out if stopped or a timer is
already pending; increment `consecutiveFailures`; give up with a final
warning once the count exceeds `MAX_RECONNECT_ATTEMPTS = 5`; otherwise arm
the reconnect timer (`RECONNECT_DELAY = 1s`). -/
def scheduleReconnect (s : StreamerState) : StreamerState × List StreamEmission :=
  if s.stopped || s.reconnectTimer then (s, [])
  else
    let n := s.consecutiveFailures + 1
    if n > 5 then ({ s with consecutiveFailures := n }, [StreamEmission.warnGivingUp])
    else ({ s with consecutiveFailures := n, reconnectTimer := true }, [])

/-- One streamer event.
* `errorEvt` — the stream `error` listener: warn, discard the stream, and
  call `scheduleReconnect`;
* `timerFire` — the reconnect timer callback: clear the timer and, unless
  stopped, log "Reconnecting" and reconnect (a successful `connect()` makes
  the stream live again);
* `dataEvt` — the `data` listener resets `consecutiveFailures` to 0;
* `stopEvt` — `stop()`: set `stopped`, clear any pending timer, end and
  null out the stream. -/
def streamerStep (s : StreamerState) (e : StreamEvent) :
    StreamerState × List StreamEmission :=
  match e with
  | StreamEvent.errorEvt =>
    let (s', ems) := scheduleReconnect { s with streamOpen := false }
    (s', StreamEmission.warnStreamError :: ems)
  | StreamEvent.timerFire =>
    if s.reconnectTimer then
      let s' := { s with reconnectTimer := false }
      if s'.stopped then (s', [])
      else ({ s' with streamOpen := true }, [StreamEmission.infoReconnecting])
    else (s, [])
  | StreamEvent.dataEvt => ({ s with consecutiveFailures := 0 }, [])
  | StreamEvent.stopEvt =>
    ({ s with stopped := true, reconnectTimer := false, streamOpen := false }, [])

/-- Run the streamer over a list of events, accumulating emissions. -/
def runStreamer : StreamerState → List StreamEvent → StreamerState × List StreamEmission
  | s, [] => (s, [])
  | s, e :: es =>
    let (s', ems) := streamerStep s e
    let (s'', ems') := runStreamer s' es
    (s'', ems ++ ems')

/-- State right after `start()` succeeded: connected, counters reset. -/
def streamerInit : StreamerState := {}

/-- Which events can actually fire in a state: a stream `error`/`data` event
requires a live stream, a timer callback requires an armed timer. -/
def streamerEnabled (s : StreamerState) : StreamEvent → Bool
  | StreamEvent.errorEvt => s.streamOpen
  | StreamEvent.timerFire => s.reconnectTimer
  | StreamEvent.dataEvt => s.streamOpen
  | StreamEvent.stopEvt => true

/-- Every event of the list is enabled at the state where it fires. -/
def validStreamerRun : StreamerState → List StreamEvent → Bool
  | _, [] => true
  | s, e :: es => streamerEnabled s e && validStreamerRun (streamerStep s e).1 es

/-- `n` consecutive stream errors with no intervening data event and no
`stop()` call: each error is followed by its reconnect timer firing before
the re-established stream can error again. -/
def consecutiveStreamErrors : Nat → List StreamEvent
  | 0 => []
  | n + 1 =>
    StreamEvent.errorEvt ::
      (List.replicate n [StreamEvent.timerFire, StreamEvent.errorEvt]).flatten

/-! ## Deploy: `prepareImage` and `createOrUpdateJob` (`src/cloud/deploy.ts`)

Both functions are straight-line orchestrations of external calls.  We model
the outcome of every external call as a field of an oracle record and record
the calls made as an effect trace.  A crucial Node.js semantics detail for
`prepareImage`: `process.exit()` terminates the process without unwinding
the stack, so a `finally` block pending around a `process.exit(1)` call does
**not** run. -/

/-- `CloudResources` from the runner config (deploy.ts reads
`resources?.memory/cpu/timeout/parallelism`). -/
structure CloudResources where
  memory : Option String := none
  cpu : Option String := none
  timeout : Option Nat := none
  parallelism : Option Nat := none
deriving DecidableEq, Repr

/-- `CloudConfig` from the runner config. -/
structure CloudConfig where
  name : String
  region : Option String := none
  artifactRegistry : Option String := none
  resources : Option CloudResources := none
  serviceAccount : Option String := none
  buildLocal : Option Bool := none
deriving DecidableEq, Repr

/-- `RunnerEnvOptions`: project, extra env vars (in insertion order),
secret names. -/
structure RunnerEnvOptions where
  project : String
  env : List (String × String) := []
  secrets : Option (List String) := none
deriving DecidableEq, Repr

/-- `DeployOptions` for `prepareImage`. -/
structure DeployOptions where
  cloud : CloudConfig
  envConfig : RunnerEnvOptions
  serviceDirectory : String
deriving DecidableEq, Repr

/-- The operator's answer to the "daemon not running" prompt; `cancelled`
models dismissing the prompt (consola returns a symbol). -/
inductive PromptChoice where
  | startDocker : PromptChoice
  | useCloudBuild : PromptChoice
  | cancelled : PromptChoice
deriving DecidableEq, Repr

/-- Outcomes of the external calls `prepareImage` can make, provided as an
oracle.  `tag` is the value `hashDirectory` returns for the isolate
directory. -/
structure DeployEnv where
  gcloudAvailable : Bool
  dockerInstalled : Bool
  dockerDaemonRunning : Bool
  stdinIsTTY : Bool
  promptChoice : PromptChoice
  dockerStartOk : Bool
  dockerReadyOk : Bool
  isolateOk : Bool
  tag : String
  imageExists : Bool
  dockerBuildOk : Bool
  dockerPushOk : Bool
  cloudBuildOk : Bool
deriving DecidableEq, Repr

/-- External calls and user-visible actions of `prepareImage`, in program
order.  `warnEff` collapses the individual `consola.warn` fallback
messages. -/
inductive DeployEffect where
  | checkGcloudEff : DeployEffect
  | warnEff : DeployEffect
  | promptEff : DeployEffect
  | startDaemonEff : DeployEffect
  | waitDaemonEff : DeployEffect
  | isolateEff : DeployEffect
  | writeDockerfileEff : DeployEffect
  | dockerBuildEff : DeployEffect
  | configureDockerEff : DeployEffect
  | dockerPushEff : DeployEffect
  | cloudBuildSubmitEff : DeployEffect
  | unlinkDockerfileEff : DeployEffect
  | exitEff : Nat → DeployEffect
deriving DecidableEq, Repr

/-- The `PrepareResult` returned by `prepareImage`. -/
structure PrepareResult where
  imageUri : String
  imageBuilt : Bool
  region : String
  project : String
deriving DecidableEq, Repr

/-- The local-vs-remote build decision (deploy.ts lines 95–160): resolves
the effective `buildLocal` flag, possibly warning, prompting, starting the
Docker daemon and waiting for it.  Returns the effects plus `none` when the
operator cancelled the prompt (`process.exit(0)`). -/
def resolveBuildLocal (opts : DeployOptions) (env : DeployEnv) :
    List DeployEffect × Option Bool :=
  if opts.cloud.buildLocal = some false then ([], some false)
  else if !env.dockerInstalled then ([DeployEffect.warnEff], some false)
  else if env.dockerDaemonRunning then ([], some true)
  else if !env.stdinIsTTY then ([DeployEffect.warnEff], some false)
  else
    match env.promptChoice with
    | PromptChoice.cancelled => ([DeployEffect.promptEff], none)
    | PromptChoice.useCloudBuild => ([DeployEffect.promptEff], some false)
    | PromptChoice.startDocker =>
      if !env.dockerStartOk then
        ([DeployEffect.promptEff, DeployEffect.startDaemonEff, DeployEffect.warnEff],
          some false)
      else if !env.dockerReadyOk then
        ([DeployEffect.promptEff, DeployEffect.startDaemonEff,
          DeployEffect.waitDaemonEff, DeployEffect.warnEff], some false)
      else
        ([DeployEffect.promptEff, DeployEffect.startDaemonEff,
          DeployEffect.waitDaemonEff], some true)

/-- `prepareImage` (deploy.ts lines 88–294): check gcloud, resolve the build
mode, isolate, hash, skip the build when the image already exists, otherwise
generate a Dockerfile and build locally (build, auth-configure, push) or via
Cloud Build.  Build/push failures call `process.exit(1)` from inside the
`try`, which in Node skips the `finally`-block `unlinkSync` — the generated
Dockerfile is deleted only when the `try` body completes (or throws).
Returns the effect trace and the result (`none` when the process exited). -/
def prepareImage (opts : DeployOptions) (env : DeployEnv) :
    List DeployEffect × Option PrepareResult :=
  let region := opts.cloud.region.getD "us-central1"
  let artifactRegistry := opts.cloud.artifactRegistry.getD "cloud-run"
  let project := opts.envConfig.project
  if !env.gcloudAvailable then
    ([DeployEffect.checkGcloudEff, DeployEffect.exitEff 1], none)
  else
    match resolveBuildLocal opts env with
    | (fx1, none) =>
      (DeployEffect.checkGcloudEff :: fx1 ++ [DeployEffect.exitEff 0], none)
    | (fx1, some buildLocal) =>
      let fx := DeployEffect.checkGcloudEff :: fx1 ++ [DeployEffect.isolateEff]
      if !env.isolateOk then (fx ++ [DeployEffect.exitEff 1], none)
      else
        let imageUri := region ++ "-docker.pkg.dev/" ++ project ++ "/" ++
          artifactRegistry ++ "/" ++ opts.cloud.name ++ ":" ++ env.tag
        if env.imageExists then
          (fx, some { imageUri := imageUri, imageBuilt := false,
                      region := region, project := project })
        else if buildLocal then
          let fx := fx ++ [DeployEffect.writeDockerfileEff, DeployEffect.dockerBuildEff]
          if !env.dockerBuildOk then (fx ++ [DeployEffect.exitEff 1], none)
          else
            let fx := fx ++ [DeployEffect.configureDockerEff, DeployEffect.dockerPushEff]
            if !env.dockerPushOk then (fx ++ [DeployEffect.exitEff 1], none)
            else
              (fx ++ [DeployEffect.unlinkDockerfileEff],
                some { imageUri := imageUri, imageBuilt := true,
                       region := region, project := project })
        else
          let fx := fx ++ [DeployEffect.writeDockerfileEff, DeployEffect.cloudBuildSubmitEff]
          if !env.cloudBuildOk then (fx ++ [DeployEffect.exitEff 1], none)
          else
            (fx ++ [DeployEffect.unlinkDockerfileEff],
              some { imageUri := imageUri, imageBuilt := true,
                     region := region, project := project })

/-- Options of `createOrUpdateJob` (deploy.ts lines 325–333). -/
structure CreateOrUpdateJobOptions where
  cloud : CloudConfig
  envConfig : RunnerEnvOptions
  jobName : String
  imageUri : String
  region : String
  project : String
deriving DecidableEq, Repr

/-- The `--set-env-vars` value: `GOOGLE_CLOUD_PROJECT` first (object spread
puts it before `envConfig.env`; we assume `env` does not itself bind
`GOOGLE_CLOUD_PROJECT`), then the configured vars, rendered `key=value` and
comma-joined. -/
def envVarsString (o : CreateOrUpdateJobOptions) : String :=
  String.intercalate ","
    ((("GOOGLE_CLOUD_PROJECT", o.project) :: o.envConfig.env).map
      (fun p => p.1 ++ "=" ++ p.2))

/-- The `--set-secrets` value: each secret name bound to its latest
version. -/
def secretsString (o : CreateOrUpdateJobOptions) : String :=
  String.intercalate ","
    ((o.envConfig.secrets.getD []).map (fun n => n ++ "=" ++ n ++ ":latest"))

/-- Argument list of the `gcloud run jobs update` call (lines 381–410):
every mutable field is re-asserted; `--parallelism` is always passed
(default 0) so removing it from config resets the deployed value. -/
def updateArgs (o : CreateOrUpdateJobOptions) : List String :=
  ["run", "jobs", "update", o.jobName,
   "--project", o.project, "--region", o.region,
   "--image=" ++ o.imageUri,
   "--set-env-vars=" ++ envVarsString o,
   "--memory=" ++ ((o.cloud.resources.bind CloudResources.memory).getD "512Mi"),
   "--cpu=" ++ ((o.cloud.resources.bind CloudResources.cpu).getD "1"),
   "--task-timeout=" ++ toString ((o.cloud.resources.bind CloudResources.timeout).getD 86400) ++ "s",
   "--max-retries=0",
   "--parallelism=" ++ toString ((o.cloud.resources.bind CloudResources.parallelism).getD 0)]
  ++ (if secretsString o ≠ "" then ["--set-secrets=" ++ secretsString o] else [])
  ++ (match o.cloud.serviceAccount with
      | some sa => ["--service-account=" ++ sa]
      | none => [])

/-- Argument list of the `gcloud run jobs create` call (lines 430–457):
same fields, but `--parallelism` only when configured. -/
def createArgs (o : CreateOrUpdateJobOptions) : List String :=
  ["run", "jobs", "create", o.jobName,
   "--project", o.project, "--region", o.region,
   "--image=" ++ o.imageUri,
   "--set-env-vars=" ++ envVarsString o,
   "--memory=" ++ ((o.cloud.resources.bind CloudResources.memory).getD "512Mi"),
   "--cpu=" ++ ((o.cloud.resources.bind CloudResources.cpu).getD "1"),
   "--task-timeout=" ++ toString ((o.cloud.resources.bind CloudResources.timeout).getD 86400) ++ "s",
   "--max-retries=0"]
  ++ (match o.cloud.resources.bind CloudResources.parallelism with
      | some p => ["--parallelism=" ++ toString p]
      | none => [])
  ++ (if secretsString o ≠ "" then ["--set-secrets=" ++ secretsString o] else [])
  ++ (match o.cloud.serviceAccount with
      | some sa => ["--service-account=" ++ sa]
      | none => [])

/-- Result of one `createOrUpdateJob` call: the new remote state, the
returned flag (`none` when the process exited on a gcloud failure), the
argument list issued, and the exit code if any. -/
structure ReconcileResult where
  world : Option (List String)
  created : Option Bool
  args : List String
  exitCode : Option Nat
deriving DecidableEq, Repr

/-- `createOrUpdateJob` (deploy.ts lines 339–473): describe the job with
errors ignored; presence takes the update path (returns `false`), absence
the create path (returns `true`); a failed gcloud call exits the process
with code 1.  `gcloudOk` is the oracle for the create/update call. -/
def createOrUpdateJob (o : CreateOrUpdateJobOptions) (world : Option (List String))
    (gcloudOk : Bool) : ReconcileResult :=
  match world with
  | some _ =>
    let args := updateArgs o
    if gcloudOk then
      { world := some args, created := some false, args := args, exitCode := none }
    else
      { world := world, created := none, args := args, exitCode := some 1 }
  | none =>
    let args := createArgs o
    if gcloudOk then
      { world := some args, created := some true, args := args, exitCode := none }
    else
      { world := none, created := none, args := args, exitCode := some 1 }

/-! ## Content hashing (`hashDirectory`)

`hashDirectory` enumerates all files below the context root (in whatever
order the file system yields them), sorts the collected paths with
JavaScript's default string sort (code-unit lexicographic), and feeds
SHA-256 first the relative path then the raw bytes of each file, returning
the first 12 hex characters of the digest.  We model a directory tree as a
list of `(relative path, bytes)` pairs in enumeration order.  All paths
share the context root, so sorting the absolute paths (as the source does)
orders them exactly like the relative paths; the byte encoding of a path
fed to `hash.update` is modelled by its character code points.  SHA-256
itself (a `node:crypto` collaborator) is implemented below on `Nat` bytes
with explicit `% 2^32` arithmetic. -/

/-- Truncate to a 32-bit word. -/
def w32 (x : Nat) : Nat := x % 4294967296

/-- Rotate a 32-bit word right by `n`. -/
def rotr (n x : Nat) : Nat := w32 ((x >>> n) ||| (x <<< (32 - n)))

/-- SHA-256 Σ₀. -/
def bsig0 (x : Nat) : Nat := rotr 2 x ^^^ rotr 13 x ^^^ rotr 22 x

/-- SHA-256 Σ₁. -/
def bsig1 (x : Nat) : Nat := rotr 6 x ^^^ rotr 11 x ^^^ rotr 25 x

/-- SHA-256 σ₀. -/
def ssig0 (x : Nat) : Nat := rotr 7 x ^^^ rotr 18 x ^^^ (x >>> 3)

/-- SHA-256 σ₁. -/
def ssig1 (x : Nat) : Nat := rotr 17 x ^^^ rotr 19 x ^^^ (x >>> 10)

/-- SHA-256 Ch. -/
def sha256Ch (e f g : Nat) : Nat := (e &&& f) ^^^ ((e ^^^ 4294967295) &&& g)

/-- SHA-256 Maj. -/
def sha256Maj (a b c : Nat) : Nat := (a &&& b) ^^^ (a &&& c) ^^^ (b &&& c)

/-- The 64 SHA-256 round constants. -/
def sha256K : List Nat :=
  [1116352408, 1899447441, 3049323471, 3921009573,
   961987163, 1508970993, 2453635748, 2870763221,
   3624381080, 310598401, 607225278, 1426881987,
   1925078388, 2162078206, 2614888103, 3248222580,
   3835390401, 4022224774, 264347078, 604807628,
   770255983, 1249150122, 1555081692, 1996064986,
   2554220882, 2821834349, 2952996808, 3210313671,
   3336571891, 3584528711, 113926993, 338241895,
   666307205, 773529912, 1294757372, 1396182291,
   1695183700, 1986661051, 2177026350, 2456956037,
   2730485921, 2820302411, 3259730800, 3345764771,
   3516065817, 3600352804, 4094571909, 275423344,
   430227734, 506948616, 659060556, 883997877,
   958139571, 1322822218, 1537002063, 1747873779,
   1955562222, 2024104815, 2227730452, 2361852424,
   2428436474, 2756734187, 3204031479, 3329325298]

/-- The eight 32-bit words of a SHA-256 state. -/
structure Sha256State where
  a : Nat
  b : Nat
  c : Nat
  d : Nat
  e : Nat
  f : Nat
  g : Nat
  h : Nat
deriving DecidableEq, Repr

/-- SHA-256 initial hash value. -/
def sha256Init : Sha256State :=
  ⟨1779033703, 3144134277, 1013904242, 2773480762,
   1359893119, 2600822924, 528734635, 1541459225⟩

/-- Big-endian bytes of `x`, `n` bytes wide. -/
def beBytes : Nat → Nat → List Nat
  | 0, _ => []
  | n + 1, x => ((x >>> (8 * n)) % 256) :: beBytes n x

/-- SHA-256 padding: append `0x80`, zeros to 56 mod 64, and the bit length
as 8 big-endian bytes. -/
def sha256Pad (msg : List Nat) : List Nat :=
  let L := msg.length
  let z := (120 - ((L + 1) % 64)) % 64
  msg ++ [0x80] ++ List.replicate z 0 ++ beBytes 8 (L * 8)

/-- Split a byte list into 64-byte chunks. -/
def chunks64 : List Nat → List (List Nat)
  | [] => []
  | x :: xs => (x :: xs).take 64 :: chunks64 ((x :: xs).drop 64)
termination_by l => l.length
decreasing_by simp [List.length_drop]; omega

/-- Combine bytes into big-endian 32-bit words. -/
def bytesToWords : List Nat → List Nat
  | a :: b :: c :: d :: rest => ((a <<< 24) ||| (b <<< 16) ||| (c <<< 8) ||| d) :: bytesToWords rest
  | _ => []

/-- Message-schedule extension: prepend `n` new words to the reversed
schedule `acc` (most recent word first). -/
def schedExtend : Nat → List Nat → List Nat
  | 0, acc => acc
  | n + 1, acc =>
    let x := w32 (ssig1 (acc.getD 1 0) + acc.getD 6 0 + ssig0 (acc.getD 14 0) + acc.getD 15 0)
    schedExtend n (x :: acc)

/-- The 64-word message schedule of one chunk. -/
def sha256Schedule (chunkWords : List Nat) : List Nat :=
  (schedExtend 48 chunkWords.reverse).reverse

/-- One SHA-256 round on state `st` with round constant and schedule word
`kw`. -/
def sha256Round (st : Sha256State) (kw : Nat × Nat) : Sha256State :=
  let t1 := w32 (st.h + bsig1 st.e + sha256Ch st.e st.f st.g + kw.1 + kw.2)
  let t2 := w32 (bsig0 st.a + sha256Maj st.a st.b st.c)
  ⟨w32 (t1 + t2), st.a, st.b, st.c, w32 (st.d + t1), st.e, st.f, st.g⟩

/-- Compress one 64-byte chunk into the running state. -/
def sha256Chunk (st : Sha256State) (chunk : List Nat) : Sha256State :=
  let ws := sha256Schedule (bytesToWords chunk)
  let r := (sha256K.zip ws).foldl sha256Round st
  ⟨w32 (st.a + r.a), w32 (st.b + r.b), w32 (st.c + r.c), w32 (st.d + r.d),
   w32 (st.e + r.e), w32 (st.f + r.f), w32 (st.g + r.g), w32 (st.h + r.h)⟩

/-- SHA-256 of a byte list, as the final state. -/
def sha256 (msg : List Nat) : Sha256State :=
  (chunks64 (sha256Pad msg)).foldl sha256Chunk sha256Init

/-- Big-endian serialization of one state word to 4 bytes. -/
def word4 (x : Nat) : List Nat :=
  [(x >>> 24) % 256, (x >>> 16) % 256, (x >>> 8) % 256, x % 256]

/-- The 32-byte SHA-256 digest. -/
def digestBytes (st : Sha256State) : List Nat :=
  word4 st.a ++ word4 st.b ++ word4 st.c ++ word4 st.d ++
  word4 st.e ++ word4 st.f ++ word4 st.g ++ word4 st.h

/-- Lower-case hex digit for `n < 16`. -/
def hexChar (n : Nat) : Char :=
  if n < 10 then Char.ofNat (48 + n) else Char.ofNat (87 + n)

/-- Hex encoding of a byte list, two digits per byte. -/
def toHexChars (bs : List Nat) : List Char :=
  (bs.map (fun b => [hexChar (b / 16), hexChar (b % 16)])).flatten

/-- Is `c` a lower-case hexadecimal digit? -/
def isHexDigitChar (c : Char) : Bool :=
  (c.toNat ≥ 48 && c.toNat ≤ 57) || (c.toNat ≥ 97 && c.toNat ≤ 102)

/-- A file of the build context: relative path and content bytes. -/
structure SrcFile where
  path : String
  bytes : List Nat
deriving DecidableEq, Repr

/-- Sort key of a path: its character code points (JavaScript's default
sort compares strings by code unit). -/
def pathKey (s : String) : List Nat := s.toList.map Char.toNat

/-- Lexicographic comparison of code-point lists. -/
def lexLe : List Nat → List Nat → Bool
  | [], _ => true
  | _ :: _, [] => false
  | a :: as, b :: bs => if a < b then true else if b < a then false else lexLe as bs

/-- Order of `files.sort()`: by path, lexicographically. -/
def fileLe (a b : SrcFile) : Prop := lexLe (pathKey a.path) (pathKey b.path) = true

instance : DecidableRel fileLe := fun a b =>
  inferInstanceAs (Decidable (lexLe (pathKey a.path) (pathKey b.path) = true))

/-- The sorted file list (`files.sort()`): `Array.prototype.sort` is a
stable comparison sort, modelled by insertion sort. -/
def sortFiles (files : List SrcFile) : List SrcFile := List.insertionSort fileLe files

/-- The byte stream fed to the hash object: fold over the sorted files,
feeding `hash.update(relativePath)` then `hash.update(bytes)` per file (the
running `Hash` object accumulates the fed bytes). -/
def hashFed (files : List SrcFile) : List Nat :=
  (sortFiles files).foldl (fun acc f => (acc ++ pathKey f.path) ++ f.bytes) []

/-- `hashDirectory`: the first 12 characters of the hex SHA-256 digest of
the fed byte stream. -/
def hashDirectory (files : List SrcFile) : String :=
  String.mk ((toHexChars (digestBytes (sha256 (hashFed files)))).take 12)

/-! ## Log batch ordering (`src/cloud/log-streamer.ts` data handler)

Each delivered batch is re-sorted by `compareEntryTimestamps`, which maps
every timestamp shape to nanoseconds via `getTimestampNanos`.  A string
timestamp is parsed with `new Date(...)`; we model a (valid RFC) string by
the epoch-millisecond value that parse yields, and a `Date` by its
`getTime()` value.  JavaScript computes `seconds * 1e9 + nanos` and
`ms * 1e6` in IEEE-754 binary64: at contemporary epochs (≈1.7·10^18 ns)
the unit in the last place is 256 ns, so each arithmetic step rounds to
the nearest representable double.  The model tracks that rounding exactly:
all inputs are integers (epoch seconds, nanos, milliseconds), integer
doubles are closed under none of these operations once they exceed 2^53,
and each `*`/`+` rounds its exact integer result to the nearest binary64
value (ties to even). -/

/-- How many halvings bring `m` below 2^53 (the binary64 exponent excess;
fuel covers the whole double range). -/
def dblExp : Nat → Nat → Nat
  | 0, _ => 0
  | fuel + 1, m => if m < 9007199254740992 then 0 else dblExp fuel (m >>> 1) + 1

/-- Round a natural number to the value of the nearest binary64 float:
below 2^53 it is exact; above, round to the nearest multiple of the unit
in the last place, ties to even. -/
def roundMantissa (m : Nat) : Nat :=
  let e := dblExp 1100 m
  if e = 0 then m
  else
    let q := m >>> e
    let r := m % (1 <<< e)
    let half := 1 <<< (e - 1)
    if r < half then q <<< e
    else if r > half then (q + 1) <<< e
    else if q % 2 = 0 then q <<< e else (q + 1) <<< e

/-- The value of the IEEE-754 binary64 double nearest to the integer `n`
(round-to-nearest, ties-to-even; every value arising here is far below the
double overflow threshold). -/
def roundToDouble (n : Int) : Int :=
  if n < 0 then -(roundMantissa n.natAbs : Int) else (roundMantissa n.natAbs : Int)

/-- The three timestamp shapes a log entry may carry. -/
inductive LogTimestamp where
  | protoTs : Option Int → Option Int → LogTimestamp
  | strTs : Int → LogTimestamp
  | dateTs : Int → LogTimestamp
deriving DecidableEq, Repr

/-- A log entry as far as batch ordering is concerned. -/
structure TailLogEntry where
  timestamp : Option LogTimestamp := none
  severity : Option String := none
  textPayload : Option String := none
deriving DecidableEq, Repr

/-- `getTimestampNanos`: protobuf `{seconds, nanos}` becomes
`seconds * 1e9 + nanos` (absent parts default to 0); strings and `Date`s
contribute their epoch milliseconds times 1e6; a missing timestamp is 0.
Each `*` and `+` is a binary64 operation on exact integer operands, so its
result is the exact product/sum rounded to the nearest double. -/
def getTimestampNanos : Option LogTimestamp → Int
  | none => 0
  | some (LogTimestamp.dateTs ms) => roundToDouble (ms * 1000000)
  | some (LogTimestamp.strTs ms) => roundToDouble (ms * 1000000)
  | some (LogTimestamp.protoTs s n) =>
      roundToDouble (roundToDouble (s.getD 0 * 1000000000) + n.getD 0)

/-- The idealized nanosecond value of a timestamp, following the words of
the spec ("nanosecond-resolution timestamps"): exact integer arithmetic
with no floating-point rounding.  Stated only to compare the entry order
the program produces against true nanosecond order. -/
def specTimestampNanos : Option LogTimestamp → Int
  | none => 0
  | some (LogTimestamp.dateTs ms) => ms * 1000000
  | some (LogTimestamp.strTs ms) => ms * 1000000
  | some (LogTimestamp.protoTs s n) => s.getD 0 * 1000000000 + n.getD 0

/-- Ordering by nanosecond timestamp (the comparator
`compareEntryTimestamps` sorts ascending). -/
def entryLe (a b : TailLogEntry) : Prop :=
  getTimestampNanos a.timestamp ≤ getTimestampNanos b.timestamp

instance : DecidableRel entryLe := fun a b =>
  inferInstanceAs (Decidable (getTimestampNanos a.timestamp ≤ getTimestampNanos b.timestamp))

/-- `[...entries].sort(compareEntryTimestamps)`: the batch as printed. -/
def sortLogBatch (batch : List TailLogEntry) : List TailLogEntry :=
  List.insertionSort entryLe batch

instance : IsTotal TailLogEntry entryLe :=
  ⟨fun a b => le_total (getTimestampNanos a.timestamp) (getTimestampNanos b.timestamp)⟩

instance : IsTrans TailLogEntry entryLe :=
  ⟨fun _ _ _ hab hbc => le_trans hab hbc⟩

/-- The state of the first "Completed" condition of an execution, if any
(the value `completedCondition?.state` examined by the poller). -/
def completedConditionState (ex : GcloudExecution) : Option String :=
  ((ex.conditions.getD []).find? (fun c => c.type == "Completed")).map ExecCondition.state

/-! ## Concrete fixtures used by the claim theorems -/

/-- An execution that has started but not completed. -/
def exStarted : GcloudExecution := { startTime := some "2024-01-01T00:00:00Z" }

/-- A completed, succeeded execution (`succeededCount = 1`). -/
def exDone : GcloudExecution :=
  { startTime := some "2024-01-01T00:00:00Z",
    completionTime := some "2024-01-01T00:05:00Z",
    succeededCount := some 1 }

/-- An execution carrying **both** success signals inconsistently: a
completion time with `succeededCount = 0`, and a "Completed" condition in
`CONDITION_SUCCEEDED`. -/
def exBothSignals : GcloudExecution :=
  { startTime := some "2024-01-01T00:00:00Z",
    completionTime := some "2024-01-01T00:05:00Z",
    succeededCount := some 0,
    conditions := some [{ type := "Completed", state := "CONDITION_SUCCEEDED" }] }

/-- A failed parallel execution: "Completed/CONDITION_FAILED" condition,
no completion time. -/
def exCondFailed : GcloudExecution :=
  { startTime := some "2024-01-01T00:00:00Z",
    conditions := some [{ type := "Completed", state := "CONDITION_FAILED",
                          message := some "Task 0 failed" }] }

/-- Deploy options fixture. -/
def exDeployOpts : DeployOptions :=
  { cloud := { name := "export-users" },
    envConfig := { project := "my-project" },
    serviceDirectory := "/srv/app" }

/-- An oracle where every external call succeeds and the image is absent. -/
def deployEnvBase : DeployEnv :=
  { gcloudAvailable := true, dockerInstalled := true, dockerDaemonRunning := true,
    stdinIsTTY := false, promptChoice := PromptChoice.useCloudBuild,
    dockerStartOk := true, dockerReadyOk := true, isolateOk := true,
    tag := "0a1b2c3d4e5f", imageExists := false,
    dockerBuildOk := true, dockerPushOk := true, cloudBuildOk := true }

/-- Two build-context files with distinct paths. -/
def fileA : SrcFile := { path := "a.txt", bytes := [104, 105] }

/-- See `fileA`. -/
def fileB : SrcFile := { path := "lib/util.js", bytes := [42] }

/-- A protobuf-timestamped entry at epoch second 1700000000 plus 100 ns.
At this epoch the binary64 value of `seconds * 1e9` sits where the unit in
the last place is 256 ns, so the 100 ns offset is rounded away. -/
def protoLate : TailLogEntry :=
  { timestamp := some (LogTimestamp.protoTs (some 1700000000) (some 100)) }

/-- The same instant without the 100 ns offset — 100 ns *earlier* than
`protoLate`, yet mapped to the same double. -/
def protoEarly : TailLogEntry :=
  { timestamp := some (LogTimestamp.protoTs (some 1700000000) (some 0)) }

/-! ## C3 — log-stream reconnect cap -/

/-- C3 (counterexample): the claim says the **5th** consecutive stream error
stops reconnection and emits the giving-up warning.  In fact after the 5th
consecutive error (`consecutiveFailures = 5`, not `> MAX_RECONNECT_ATTEMPTS`)
a reconnect timer is still scheduled and no "giving up" warning has been
emitted. -/
theorem logstream_fifth_error_still_reconnects :
    validStreamerRun streamerInit (consecutiveStreamErrors 5) = true ∧
    (runStreamer streamerInit (consecutiveStreamErrors 5)).1.reconnectTimer = true ∧
    (runStreamer streamerInit (consecutiveStreamErrors 5)).1.consecutiveFailures = 5 ∧
    (runStreamer streamerInit (consecutiveStreamErrors 5)).2.count
      StreamEmission.warnGivingUp = 0 := by decide

/-- C3 (amended): it is the **6th** consecutive stream error — the 5th
failed reconnection attempt — that stops streaming: no reconnect timer is
scheduled after it, exactly one "giving up" warning is emitted, and the
resulting state is quiescent (no stream to error, no timer to fire), so no
further reconnect or warning can ever occur. -/
theorem logstream_reconnect_cap :
    validStreamerRun streamerInit (consecutiveStreamErrors 6) = true ∧
    (runStreamer streamerInit (consecutiveStreamErrors 6)).1.reconnectTimer = false ∧
    (runStreamer streamerInit (consecutiveStreamErrors 6)).2.count
      StreamEmission.warnGivingUp = 1 ∧
    streamerEnabled (runStreamer streamerInit (consecutiveStreamErrors 6)).1
      StreamEvent.errorEvt = false ∧
    streamerEnabled (runStreamer streamerInit (consecutiveStreamErrors 6)).1
      StreamEvent.timerFire = false ∧
    streamerEnabled (runStreamer streamerInit (consecutiveStreamErrors 6)).1
      StreamEvent.dataEvt = false := by decide

/-! ## C6 — idempotent reconcile -/

/-- C6: with the job resource already present, `createOrUpdateJob` takes the
update path and reports `created = false`; a second call with the identical
options issues the identical argument list, reports `created = false` again,
and leaves the remote state unchanged.  With the resource absent it takes
the create path and reports `created = true`. -/
theorem createOrUpdateJob_idempotent (o : CreateOrUpdateJobOptions) (j : List String) :
    (createOrUpdateJob o (some j) true).created = some false ∧
    (createOrUpdateJob o (some j) true).args = updateArgs o ∧
    (createOrUpdateJob o (createOrUpdateJob o (some j) true).world true).created
      = some false ∧
    (createOrUpdateJob o (createOrUpdateJob o (some j) true).world true).args
      = (createOrUpdateJob o (some j) true).args ∧
    (createOrUpdateJob o (createOrUpdateJob o (some j) true).world true).world
      = (createOrUpdateJob o (some j) true).world ∧
    (createOrUpdateJob o none true).created = some true := by
  simp [createOrUpdateJob]


/-! ## C7 — transient Dockerfile cleanup -/

/-- C7 (code bug): the generated Dockerfile is deleted only when the build
succeeds.  On a local build failure, a push failure, or a Cloud Build
failure, `process.exit(1)` is called inside the `try` block; Node
terminates without unwinding the stack, so the `finally`-block `unlinkSync`
never runs and the written Dockerfile is left behind — contradicting the
guaranteed-cleanup claim (and the cleanup intent documented in the code
itself).  The last two conjuncts show the write/delete pairing does hold on
the success paths. -/
theorem prepareImage_dockerfile_cleanup_bug :
    (DeployEffect.writeDockerfileEff ∈
        (prepareImage exDeployOpts { deployEnvBase with dockerBuildOk := false }).1 ∧
      DeployEffect.exitEff 1 ∈
        (prepareImage exDeployOpts { deployEnvBase with dockerBuildOk := false }).1 ∧
      DeployEffect.unlinkDockerfileEff ∉
        (prepareImage exDeployOpts { deployEnvBase with dockerBuildOk := false }).1) ∧
    (DeployEffect.writeDockerfileEff ∈
        (prepareImage exDeployOpts { deployEnvBase with dockerPushOk := false }).1 ∧
      DeployEffect.unlinkDockerfileEff ∉
        (prepareImage exDeployOpts { deployEnvBase with dockerPushOk := false }).1) ∧
    (DeployEffect.writeDockerfileEff ∈
        (prepareImage exDeployOpts { deployEnvBase with
          dockerInstalled := false, cloudBuildOk := false }).1 ∧
      DeployEffect.unlinkDockerfileEff ∉
        (prepareImage exDeployOpts { deployEnvBase with
          dockerInstalled := false, cloudBuildOk := false }).1) ∧
    (DeployEffect.writeDockerfileEff ∈ (prepareImage exDeployOpts deployEnvBase).1 ∧
      DeployEffect.unlinkDockerfileEff ∈ (prepareImage exDeployOpts deployEnvBase).1) ∧
    (DeployEffect.writeDockerfileEff ∈
        (prepareImage exDeployOpts { deployEnvBase with dockerInstalled := false }).1 ∧
      DeployEffect.unlinkDockerfileEff ∈
        (prepareImage exDeployOpts { deployEnvBase with dockerInstalled := false }).1) := by
  decide

/-! ## C8 — log batch ordering -/

/-- C8 (counterexample): two protobuf-timestamped entries 100 ns apart at
a contemporary epoch, delivered latest-first.  Their true nanosecond values
differ, but `seconds * 1e9 + nanos` is computed in binary64 whose unit in
the last place there is 256 ns: both map to the same comparator value, the
stable sort keeps arrival order, and the batch prints latest-first —
not in ascending order of nanosecond-resolution timestamps. -/
theorem sortLogBatch_ns_order_counterexample :
    specTimestampNanos protoEarly.timestamp <
      specTimestampNanos protoLate.timestamp ∧
    getTimestampNanos protoLate.timestamp =
      getTimestampNanos protoEarly.timestamp ∧
    sortLogBatch [protoLate, protoEarly] = [protoLate, protoEarly] := by decide

/-- C8 (amended): every delivered batch is printed in ascending order of
the comparator value `getTimestampNanos` — the binary64 double the code
computes, which quantizes contemporary protobuf timestamps to the double's
unit in the last place (256 ns at current epochs), so entries closer than
one ulp may keep arrival order; whenever the doubles distinguish the
timestamps this is true nanosecond order.  The sorted batch is a
permutation of the delivered one — re-ordering loses no entry.  The final
conjunct is the spec's concrete scenario: three entries (one per timestamp
shape, with timestamps the double represents exactly) arriving out of
order are printed in ascending timestamp order. -/
theorem sortLogBatch_ordered :
    (∀ batch : List TailLogEntry,
      (sortLogBatch batch).Perm batch ∧
      List.Pairwise
        (fun a b => getTimestampNanos a.timestamp ≤ getTimestampNanos b.timestamp)
        (sortLogBatch batch)) ∧
    sortLogBatch
        [{ timestamp := some (LogTimestamp.protoTs (some 20) (some 5)) },
         { timestamp := some (LogTimestamp.strTs 2) },
         { timestamp := some (LogTimestamp.dateTs 1) }] =
      [{ timestamp := some (LogTimestamp.dateTs 1) },
       { timestamp := some (LogTimestamp.strTs 2) },
       { timestamp := some (LogTimestamp.protoTs (some 20) (some 5)) }] := by
  refine ⟨fun batch => ⟨List.perm_insertionSort entryLe batch, ?_⟩, by decide⟩
  exact List.sorted_insertionSort entryLe batch

/-! ## Poller lemmas shared by C1, C2 and C9 -/

/-- With a callback supplied, the status-transition block never throws. -/
lemma statusBlock_true_no_throw (s : PollState) (ex : GcloudExecution) :
    (statusBlock true s ex).2.2 = false := by
  cases hs : s.hasStarted <;> cases hst : ex.startTime.isSome <;>
    cases hr : s.hasReportedStarting <;> simp [statusBlock, hs, hst, hr]

/-- The status-transition block never touches the error counter. -/
lemma statusBlock_errors (hc : Bool) (s : PollState) (ex : GcloudExecution) :
    (statusBlock hc s ex).1.consecutiveErrors = s.consecutiveErrors := by
  cases hc <;> cases hs : s.hasStarted <;> cases hst : ex.startTime.isSome <;>
    cases hr : s.hasReportedStarting <;> simp [statusBlock, hs, hst, hr]

/-- With a callback supplied, a parsed response settles the promise exactly
as the terminal-state checks dictate. -/
lemma pollCheck_true_resp (s : PollState) (ex : GcloudExecution) :
    (pollCheck true s (PollEvent.resp (some ex))).2.2 = terminalOf ex := by
  unfold pollCheck
  rcases h : statusBlock true { s with consecutiveErrors := 0 } ex with ⟨s1, ems, thr⟩
  have hf := statusBlock_true_no_throw { s with consecutiveErrors := 0 } ex
  rw [h] at hf
  have hthr : thr = false := hf
  subst hthr
  simp [h]

/-- With a callback supplied, any successful poll call resets the
consecutive-error counter to zero. -/
lemma pollCheck_true_resp_resets (s : PollState) (r : Option GcloudExecution) :
    (pollCheck true s (PollEvent.resp r)).1.consecutiveErrors = 0 := by
  unfold pollCheck
  cases r with
  | none => simp
  | some ex =>
    rcases h : statusBlock true { s with consecutiveErrors := 0 } ex with ⟨s1, ems, thr⟩
    have hf := statusBlock_true_no_throw { s with consecutiveErrors := 0 } ex
    have he := statusBlock_errors true { s with consecutiveErrors := 0 } ex
    rw [h] at hf he
    have hthr : thr = false := hf
    have he1 : s1.consecutiveErrors = 0 := he
    subst hthr
    simp [h, he1]

/-- A poll-call failure settles the promise (with the polling-failure
rejection) exactly when the error counter was already at 9, i.e. on the
10th consecutive failure. -/
lemma pollCheck_throw_outcome (hc : Bool) (s : PollState) :
    (pollCheck hc s PollEvent.throwErr).2.2 = some PollOutcome.pollFailure ↔
      9 ≤ s.consecutiveErrors := by
  show (pollCatch s).2.2 = some PollOutcome.pollFailure ↔ 9 ≤ s.consecutiveErrors
  unfold pollCatch
  by_cases h : s.consecutiveErrors + 1 ≥ 10
  · simp [h]; omega
  · simp [h]; omega

/-- Splitting a poll run whose first part does not settle the promise. -/
lemma pollExecution_append (hc : Bool) (es es' : List PollEvent) :
    ∀ s : PollState, (pollExecution hc s es).2.2 = none →
      (pollExecution hc s (es ++ es')).2.2 =
        (pollExecution hc (pollExecution hc s es).1 es').2.2 := by
  induction es with
  | nil => intro s _; simp [pollExecution]
  | cons e es ih =>
    intro s h
    rcases hc2 : pollCheck hc s e with ⟨s1, ems, out⟩
    cases out with
    | some o => simp [pollExecution, hc2] at h
    | none =>
      simp only [pollExecution, hc2] at h ⊢
      exact ih s1 h

/-- One-step accounting of "Running" notifications: a step emits "Running"
exactly when `hasStarted` flips, and `hasStarted` never flips back. -/
lemma pollCheck_running_count (s : PollState) (e : PollEvent) :
    (pollCheck true s e).2.1.count PollEmission.running
      + (if s.hasStarted then 1 else 0)
      = (if (pollCheck true s e).1.hasStarted then 1 else 0) := by
  cases e with
  | throwErr =>
    by_cases h : s.consecutiveErrors + 1 ≥ 10 <;>
      by_cases h3 : s.consecutiveErrors + 1 ≤ 3 <;>
      simp [pollCheck, pollCatch, h, h3]
  | resp r =>
    cases r with
    | none => simp [pollCheck]
    | some ex =>
      cases hs : s.hasStarted <;> cases hst : ex.startTime.isSome <;>
        cases hr : s.hasReportedStarting <;>
        simp [pollCheck, statusBlock, hs, hst, hr]

/-- One-step accounting of "Container starting" notices: a step emits one
exactly when `hasReportedStarting` flips, and the flag never flips back. -/
lemma pollCheck_starting_count (s : PollState) (e : PollEvent) :
    (pollCheck true s e).2.1.count PollEmission.starting
      + (if s.hasReportedStarting then 1 else 0)
      = (if (pollCheck true s e).1.hasReportedStarting then 1 else 0) := by
  cases e with
  | throwErr =>
    by_cases h : s.consecutiveErrors + 1 ≥ 10 <;>
      by_cases h3 : s.consecutiveErrors + 1 ≤ 3 <;>
      simp [pollCheck, pollCatch, h, h3]
  | resp r =>
    cases r with
    | none => simp [pollCheck]
    | some ex =>
      cases hs : s.hasStarted <;> cases hst : ex.startTime.isSome <;>
        cases hr : s.hasReportedStarting <;>
        simp [pollCheck, statusBlock, hs, hst, hr]

/-- Whole-run accounting of "Running" notifications. -/
lemma pollExecution_running_count (es : List PollEvent) :
    ∀ s : PollState,
      (pollExecution true s es).2.1.count PollEmission.running
        + (if s.hasStarted then 1 else 0)
        = (if (pollExecution true s es).1.hasStarted then 1 else 0) := by
  induction es with
  | nil => intro s; simp [pollExecution]
  | cons e es ih =>
    intro s
    rcases h : pollCheck true s e with ⟨s1, ems, out⟩
    have hstep := pollCheck_running_count s e
    rw [h] at hstep
    have hstep2 : ems.count PollEmission.running + (if s.hasStarted then 1 else 0)
        = (if s1.hasStarted then 1 else 0) := hstep
    cases out with
    | some o =>
      simp only [pollExecution, h]
      exact hstep2
    | none =>
      have hrec := ih s1
      simp only [pollExecution, h, List.count_append]
      omega

/-- Whole-run accounting of "Container starting" notices. -/
lemma pollExecution_starting_count (es : List PollEvent) :
    ∀ s : PollState,
      (pollExecution true s es).2.1.count PollEmission.starting
        + (if s.hasReportedStarting then 1 else 0)
        = (if (pollExecution true s es).1.hasReportedStarting then 1 else 0) := by
  induction es with
  | nil => intro s; simp [pollExecution]
  | cons e es ih =>
    intro s
    rcases h : pollCheck true s e with ⟨s1, ems, out⟩
    have hstep := pollCheck_starting_count s e
    rw [h] at hstep
    have hstep2 : ems.count PollEmission.starting + (if s.hasReportedStarting then 1 else 0)
        = (if s1.hasReportedStarting then 1 else 0) := hstep
    cases out with
    | some o =>
      simp only [pollExecution, h]
      exact hstep2
    | none =>
      have hrec := ih s1
      simp only [pollExecution, h, List.count_append]
      omega

/-- A one-event run settles exactly as the single `check` does. -/
lemma pollExecution_single (hc : Bool) (s : PollState) (e : PollEvent) :
    (pollExecution hc s [e]).2.2 = (pollCheck hc s e).2.2 := by
  rcases h : pollCheck hc s e with ⟨s1, ems, out⟩
  cases out <;> simp [pollExecution, h]

/-- Completion time present with a positive success count resolves
"succeeded". -/
lemma terminalOf_completion_pos (ex : GcloudExecution)
    (h1 : ex.completionTime.isSome = true) (h2 : 0 < ex.succeededCount.getD 0) :
    terminalOf ex = some (PollOutcome.resolved true) := by
  simp [terminalOf, h1, h2]

/-- Completion time present with a non-positive success count resolves
"failed" — regardless of any success condition. -/
lemma terminalOf_completion_nonpos (ex : GcloudExecution)
    (h1 : ex.completionTime.isSome = true) (h2 : ex.succeededCount.getD 0 ≤ 0) :
    terminalOf ex = some (PollOutcome.resolved false) := by
  have hnot : ¬(0 < ex.succeededCount.getD 0) := not_lt.mpr h2
  simp [terminalOf, h1, hnot]

/-- With no completion time, a "Completed/CONDITION_SUCCEEDED" condition
resolves "succeeded". -/
lemma terminalOf_cond_succeeded (ex : GcloudExecution)
    (h1 : ex.completionTime = none)
    (h2 : completedConditionState ex = some "CONDITION_SUCCEEDED") :
    terminalOf ex = some (PollOutcome.resolved true) := by
  rcases Option.map_eq_some'.mp h2 with ⟨c, hc, hst⟩
  simp [terminalOf, h1, hc, hst]

/-- With no completion time, a "Completed/CONDITION_FAILED" condition
resolves "failed". -/
lemma terminalOf_cond_failed (ex : GcloudExecution)
    (h1 : ex.completionTime = none)
    (h2 : completedConditionState ex = some "CONDITION_FAILED") :
    terminalOf ex = some (PollOutcome.resolved false) := by
  rcases Option.map_eq_some'.mp h2 with ⟨c, hc, hst⟩
  have hne : (("CONDITION_FAILED" : String) == "CONDITION_SUCCEEDED") = false := by decide
  simp [terminalOf, h1, hc, hst, hne]

/-! ## C1 — poller terminal outcomes -/

/-- C1 (counterexample): the claim makes a "Completed" condition in a
success state sufficient on its own for a Succeeded outcome.  But the
poller checks `completionTime` first: on a response carrying a completion
time with `succeededCount = 0` **and** a "Completed/CONDITION_SUCCEEDED"
condition, it resolves with a Failed outcome. -/
theorem poller_success_signal_counterexample :
    completedConditionState exBothSignals = some "CONDITION_SUCCEEDED" ∧
    exBothSignals.completionTime.isSome = true ∧
    exBothSignals.succeededCount.getD 0 = 0 ∧
    (pollExecution true initPollState [PollEvent.resp (some exBothSignals)]).2.2 =
      some (PollOutcome.resolved false) := by decide

/-- C1 (amended): once a poll response is reached (any prefix of poll
events that has not yet settled the promise), a completion time with
`succeededCount > 0` yields Succeeded; a completion time with
`succeededCount ≤ 0` yields Failed (the completion-time check takes
precedence over conditions); with no completion time set, a
"Completed/CONDITION_SUCCEEDED" condition alone yields Succeeded and a
"Completed/CONDITION_FAILED" condition alone yields Failed. -/
theorem poller_terminal_signals (es : List PollEvent) (ex : GcloudExecution)
    (hpre : (pollExecution true initPollState es).2.2 = none) :
    ((ex.completionTime.isSome = true ∧ 0 < ex.succeededCount.getD 0) →
      (pollExecution true initPollState (es ++ [PollEvent.resp (some ex)])).2.2 =
        some (PollOutcome.resolved true)) ∧
    ((ex.completionTime.isSome = true ∧ ex.succeededCount.getD 0 ≤ 0) →
      (pollExecution true initPollState (es ++ [PollEvent.resp (some ex)])).2.2 =
        some (PollOutcome.resolved false)) ∧
    ((ex.completionTime = none ∧
        completedConditionState ex = some "CONDITION_SUCCEEDED") →
      (pollExecution true initPollState (es ++ [PollEvent.resp (some ex)])).2.2 =
        some (PollOutcome.resolved true)) ∧
    ((ex.completionTime = none ∧
        completedConditionState ex = some "CONDITION_FAILED") →
      (pollExecution true initPollState (es ++ [PollEvent.resp (some ex)])).2.2 =
        some (PollOutcome.resolved false)) := by
  have hsplit := pollExecution_append true es [PollEvent.resp (some ex)] initPollState hpre
  rw [pollExecution_single, pollCheck_true_resp] at hsplit
  refine ⟨fun ⟨h1, h2⟩ => ?_, fun ⟨h1, h2⟩ => ?_, fun ⟨h1, h2⟩ => ?_, fun ⟨h1, h2⟩ => ?_⟩
  · rw [hsplit, terminalOf_completion_pos ex h1 h2]
  · rw [hsplit, terminalOf_completion_nonpos ex h1 h2]
  · rw [hsplit, terminalOf_cond_succeeded ex h1 h2]
  · rw [hsplit, terminalOf_cond_failed ex h1 h2]

/-- C1 (witness): a completed execution with `succeededCount = 1` resolves
Succeeded; an execution with only a "Completed/CONDITION_FAILED" condition
and no completion time resolves Failed. -/
theorem poller_terminal_signals_witness :
    (pollExecution true initPollState [PollEvent.resp (some exDone)]).2.2 =
        some (PollOutcome.resolved true) ∧
    (pollExecution true initPollState [PollEvent.resp (some exCondFailed)]).2.2 =
        some (PollOutcome.resolved false) :=
  ⟨(poller_terminal_signals [] exDone rfl).1 ⟨rfl, by decide⟩,
   (poller_terminal_signals [] exCondFailed rfl).2.2.2 ⟨rfl, by decide⟩⟩

/-! ## C2 — poller consecutive-error cap -/

/-- C2: nine consecutive poll failures keep polling; the 10th consecutive
failure rejects with the polling error (distinct from every task outcome,
which is a `resolved` value).  Three failures, one successful poll, then
nine further failures never reject: every successful poll call resets the
consecutive-error counter to zero (fourth conjunct), and a poll failure
rejects exactly when the counter already stood at 9 (fifth conjunct). -/
theorem poller_error_cap :
    (pollExecution true initPollState (List.replicate 9 PollEvent.throwErr)).2.2 = none ∧
    (pollExecution true initPollState (List.replicate 10 PollEvent.throwErr)).2.2 =
      some PollOutcome.pollFailure ∧
    (pollExecution true initPollState
      (List.replicate 3 PollEvent.throwErr ++ PollEvent.resp none ::
        List.replicate 9 PollEvent.throwErr)).2.2 = none ∧
    (∀ (s : PollState) (r : Option GcloudExecution),
      (pollCheck true s (PollEvent.resp r)).1.consecutiveErrors = 0) ∧
    (∀ s : PollState,
      (pollCheck true s PollEvent.throwErr).2.2 = some PollOutcome.pollFailure ↔
        9 ≤ s.consecutiveErrors) :=
  ⟨by decide, by decide, by decide, pollCheck_true_resp_resets,
    fun s => pollCheck_throw_outcome true s⟩

/-! ## C9 — one-time notifications -/

/-- C9: over every sequence of poll events, the "Running" notification is
emitted exactly once if the run observed a start time and never otherwise,
and the "Container starting" notice exactly once if the run reported
starting and never otherwise — so neither is ever emitted twice.  The last
conjunct is the spec's scenario: no start time → start time → completion
with `succeededCount = 1` emits exactly "starting" then "running" and
resolves Succeeded. -/
theorem poller_notifications_once :
    (∀ es : List PollEvent,
      (pollExecution true initPollState es).2.1.count PollEmission.running =
        (if (pollExecution true initPollState es).1.hasStarted then 1 else 0) ∧
      (pollExecution true initPollState es).2.1.count PollEmission.running ≤ 1 ∧
      (pollExecution true initPollState es).2.1.count PollEmission.starting =
        (if (pollExecution true initPollState es).1.hasReportedStarting then 1 else 0) ∧
      (pollExecution true initPollState es).2.1.count PollEmission.starting ≤ 1) ∧
    pollExecution true initPollState
        [PollEvent.resp (some {}), PollEvent.resp (some exStarted),
         PollEvent.resp (some exDone)] =
      (⟨0, true, true⟩, [PollEmission.starting, PollEmission.running],
        some (PollOutcome.resolved true)) := by
  refine ⟨fun es => ?_, by decide⟩
  have h1 := pollExecution_running_count es initPollState
  have h2 := pollExecution_starting_count es initPollState
  have hi1 : (if initPollState.hasStarted then 1 else 0) = 0 := rfl
  have hi2 : (if initPollState.hasReportedStarting then 1 else 0) = 0 := rfl
  rw [hi1] at h1
  rw [hi2] at h2
  refine ⟨by omega, ?_, by omega, ?_⟩
  · by_cases hb : (pollExecution true initPollState es).1.hasStarted <;>
      simp [hb] at h1 <;> omega
  · by_cases hb : (pollExecution true initPollState es).1.hasReportedStarting <;>
      simp [hb] at h2 <;> omega

/-! ## C10 — unguarded `onStatusChange` call -/

/-- C10: when `onStatusChange` is omitted and a successfully parsed
response carries no start time (with neither flag set yet), the "Container
starting" branch calls the missing callback: the `TypeError` lands in the
`catch` block, so the iteration ends with the consecutive-error counter at
1 (the successful poll had just reset it to 0 before the throw),
`hasReportedStarting` already set, a transport-style warning emitted, no
notification delivered, and no settled outcome — even though the poll call
itself succeeded. -/
theorem poller_missing_callback_typeerror (s : PollState) (ex : GcloudExecution)
    (h1 : s.hasStarted = false) (h2 : s.hasReportedStarting = false)
    (h3 : ex.startTime = none) :
    pollCheck false s (PollEvent.resp (some ex)) =
      ({ consecutiveErrors := 1, hasStarted := false, hasReportedStarting := true },
        [PollEmission.warnPollError], none) := by
  simp [pollCheck, statusBlock, pollCatch, h1, h2, h3]

/-- C10 (witness): the first successful poll of a not-yet-started execution
with the callback omitted. -/
theorem poller_missing_callback_typeerror_witness :
    pollCheck false initPollState (PollEvent.resp (some {})) =
      ({ consecutiveErrors := 1, hasStarted := false, hasReportedStarting := true },
        [PollEmission.warnPollError], none) :=
  poller_missing_callback_typeerror initPollState {} rfl rfl rfl

/-! ## C4 — build skip on cache hit -/

/-- The build-mode decision only warns, prompts, or manages the Docker
daemon — it never builds anything itself. -/
lemma resolveBuildLocal_effects (opts : DeployOptions) (env : DeployEnv) :
    ∀ e ∈ (resolveBuildLocal opts env).1,
      e = DeployEffect.warnEff ∨ e = DeployEffect.promptEff ∨
      e = DeployEffect.startDaemonEff ∨ e = DeployEffect.waitDaemonEff := by
  intro e he
  unfold resolveBuildLocal at he
  repeat' split at he
  all_goals (try simp_all)
  all_goals tauto

/-- C4: whenever the computed tag already exists in the remote registry and
`prepareImage` returns a result, that result reports `imageBuilt = false`
and the effect trace contains no local Docker build, no push, no Cloud
Build submission — and not even a generated Dockerfile. -/
theorem prepareImage_build_skip (opts : DeployOptions) (env : DeployEnv)
    (fx : List DeployEffect) (res : PrepareResult)
    (hex : env.imageExists = true)
    (hrun : prepareImage opts env = (fx, some res)) :
    res.imageBuilt = false ∧
    DeployEffect.dockerBuildEff ∉ fx ∧
    DeployEffect.dockerPushEff ∉ fx ∧
    DeployEffect.cloudBuildSubmitEff ∉ fx ∧
    DeployEffect.writeDockerfileEff ∉ fx := by
  have hfx := resolveBuildLocal_effects opts env
  unfold prepareImage at hrun
  rcases hrb : resolveBuildLocal opts env with ⟨fx1, ob⟩
  rw [hrb] at hrun hfx
  simp only at hfx
  cases hg : env.gcloudAvailable with
  | false => rw [hg] at hrun; simp at hrun
  | true =>
    rw [hg] at hrun
    simp only [Bool.not_true, Bool.false_eq_true, if_false] at hrun
    cases ob with
    | none => simp at hrun
    | some buildLocal =>
      cases hio : env.isolateOk with
      | false => rw [hio] at hrun; simp at hrun
      | true =>
        rw [hio, hex] at hrun
        simp only [Bool.not_true, Bool.false_eq_true, if_false, if_true] at hrun
        rw [Prod.mk.injEq, Option.some.injEq] at hrun
        rcases hrun with ⟨hfxeq, hres⟩
        subst hfxeq
        subst hres
        refine ⟨rfl, ?_, ?_, ?_, ?_⟩ <;>
          · intro hmem
            simp at hmem
            have := hfx _ hmem
            simp at this

/-- C4 (witness): a cache hit with Docker available skips every build
step. -/
theorem prepareImage_build_skip_witness :
    ({ imageUri := "us-central1-docker.pkg.dev/my-project/cloud-run/export-users:0a1b2c3d4e5f",
       imageBuilt := false, region := "us-central1",
       project := "my-project" } : PrepareResult).imageBuilt = false ∧
    DeployEffect.dockerBuildEff ∉
      [DeployEffect.checkGcloudEff, DeployEffect.isolateEff] ∧
    DeployEffect.dockerPushEff ∉
      [DeployEffect.checkGcloudEff, DeployEffect.isolateEff] ∧
    DeployEffect.cloudBuildSubmitEff ∉
      [DeployEffect.checkGcloudEff, DeployEffect.isolateEff] ∧
    DeployEffect.writeDockerfileEff ∉
      [DeployEffect.checkGcloudEff, DeployEffect.isolateEff] :=
  prepareImage_build_skip exDeployOpts { deployEnvBase with imageExists := true }
    [DeployEffect.checkGcloudEff, DeployEffect.isolateEff]
    { imageUri := "us-central1-docker.pkg.dev/my-project/cloud-run/export-users:0a1b2c3d4e5f",
      imageBuilt := false, region := "us-central1", project := "my-project" }
    rfl (by decide)

/-! ## C5 — directory hashing -/

/-- `lexLe` is total. -/
lemma lexLe_total : ∀ x y : List Nat, lexLe x y = true ∨ lexLe y x = true := by
  intro x
  induction x with
  | nil => intro y; left; rfl
  | cons a as ih =>
    intro y
    cases y with
    | nil => right; rfl
    | cons b bs =>
      by_cases h1 : a < b
      · left; simp [lexLe, h1]
      · by_cases h2 : b < a
        · right; simp [lexLe, h2]
        · have hab : a = b := by omega
          subst hab
          rcases ih bs with h | h
          · left; simpa [lexLe] using h
          · right; simpa [lexLe] using h

/-- `lexLe` is transitive. -/
lemma lexLe_trans : ∀ x y z : List Nat,
    lexLe x y = true → lexLe y z = true → lexLe x z = true := by
  intro x
  induction x with
  | nil => intro y z _ _; rfl
  | cons a as ih =>
    intro y z hxy hyz
    cases y with
    | nil => simp [lexLe] at hxy
    | cons b bs =>
      cases z with
      | nil => simp [lexLe] at hyz
      | cons c cs =>
        simp only [lexLe] at hxy hyz ⊢
        by_cases hab : a < b
        · by_cases hbc : b < c
          · have hac : a < c := by omega
            simp [hac]
          · by_cases hcb : c < b
            · simp [hbc, hcb] at hyz
            · have : b = c := by omega
              subst this
              simp [hab]
        · by_cases hba : b < a
          · simp [hab, hba] at hxy
          · have : a = b := by omega
            subst this
            simp [Nat.lt_irrefl] at hxy
            by_cases hbc : a < c
            · simp [hbc]
            · by_cases hcb : c < a
              · simp [hbc, hcb] at hyz
              · have : a = c := by omega
                subst this
                simp [Nat.lt_irrefl] at hyz ⊢
                exact ih bs cs hxy hyz

/-- `lexLe` is antisymmetric. -/
lemma lexLe_antisymm : ∀ x y : List Nat,
    lexLe x y = true → lexLe y x = true → x = y := by
  intro x
  induction x with
  | nil =>
    intro y _ hyx
    cases y with
    | nil => rfl
    | cons b bs => simp [lexLe] at hyx
  | cons a as ih =>
    intro y hxy hyx
    cases y with
    | nil => simp [lexLe] at hxy
    | cons b bs =>
      simp only [lexLe] at hxy hyx
      by_cases hab : a < b
      · by_cases hba : b < a
        · omega
        · simp [hab, hba] at hyx
      · by_cases hba : b < a
        · simp [hab, hba] at hxy
        · have : a = b := by omega
          subst this
          simp [Nat.lt_irrefl] at hxy hyx
          rw [ih bs hxy hyx]

/-- Paths with equal code-point keys are equal. -/
lemma pathKey_inj {a b : String} (h : pathKey a = pathKey b) : a = b := by
  unfold pathKey at h
  exact String.ext
    (List.map_injective_iff.mpr (fun x y hxy => Char.ext (UInt32.ext hxy)) h)

/-- Sorting is a permutation. -/
lemma sortFiles_perm (l : List SrcFile) : (sortFiles l).Perm l :=
  List.perm_insertionSort fileLe l

/-- The sorted file list is pairwise ordered by path. -/
lemma sortFiles_sorted (l : List SrcFile) : List.Pairwise fileLe (sortFiles l) := by
  have h := @List.sorted_insertionSort SrcFile fileLe (by infer_instance)
    ⟨fun a b => lexLe_total (pathKey a.path) (pathKey b.path)⟩
    ⟨fun a b c hab hbc => lexLe_trans _ _ _ hab hbc⟩ l
  unfold List.Sorted at h
  exact h

/-- Two permuted lists that are both strictly sorted (ordered by path with
all paths distinct) are equal. -/
lemma perm_pairwise_strict_eq :
    ∀ {l₁ l₂ : List SrcFile}, l₁.Perm l₂ →
      List.Pairwise (fun a b => fileLe a b ∧ a.path ≠ b.path) l₁ →
      List.Pairwise (fun a b => fileLe a b ∧ a.path ≠ b.path) l₂ →
      l₁ = l₂ := by
  intro l₁
  induction l₁ with
  | nil =>
    intro l₂ hp _ _
    exact (hp.symm.eq_nil).symm
  | cons a t ih =>
    intro l₂ hp h1 h2
    cases l₂ with
    | nil => exact absurd hp.eq_nil (by simp)
    | cons b t₂ =>
      have hab : a = b := by
        by_contra hne
        have hbt : b ∈ t := by
          have hmem : b ∈ a :: t := hp.symm.subset (List.mem_cons_self b t₂)
          rcases List.mem_cons.mp hmem with h | h
          · exact absurd h.symm hne
          · exact h
        have hat2 : a ∈ t₂ := by
          have hmem : a ∈ b :: t₂ := hp.subset (List.mem_cons_self a t)
          rcases List.mem_cons.mp hmem with h | h
          · exact absurd h hne
          · exact h
        have h3 := (List.pairwise_cons.mp h1).1 b hbt
        have h4 := (List.pairwise_cons.mp h2).1 a hat2
        have hkey := lexLe_antisymm _ _ h3.1 h4.1
        exact h3.2 (pathKey_inj hkey)
      subst hab
      have hpt : t.Perm t₂ := hp.cons_inv
      exact congrArg (List.cons a)
        (ih hpt (List.pairwise_cons.mp h1).2 (List.pairwise_cons.mp h2).2)

/-- A sorted list with pairwise-distinct paths is strictly sorted. -/
lemma sorted_nodup_strict {l : List SrcFile}
    (hs : List.Pairwise fileLe l) (hn : (l.map SrcFile.path).Nodup) :
    List.Pairwise (fun a b => fileLe a b ∧ a.path ≠ b.path) l :=
  hs.and (List.pairwise_map.mp hn)

/-- Sorting canonicalizes: any two enumerations of the same file set (with
distinct paths, as a file system guarantees) sort to the same list. -/
lemma sortFiles_eq_of_perm {l₁ l₂ : List SrcFile} (hp : l₁.Perm l₂)
    (hn : (l₁.map SrcFile.path).Nodup) : sortFiles l₁ = sortFiles l₂ := by
  have hp2 : (sortFiles l₁).Perm (sortFiles l₂) :=
    ((sortFiles_perm l₁).trans hp).trans (sortFiles_perm l₂).symm
  have hn1 : ((sortFiles l₁).map SrcFile.path).Nodup :=
    (((sortFiles_perm l₁).map SrcFile.path).nodup_iff).mpr hn
  have hn2 : ((sortFiles l₂).map SrcFile.path).Nodup :=
    ((hp2.map SrcFile.path).nodup_iff).mp hn1
  exact perm_pairwise_strict_eq hp2
    (sorted_nodup_strict (sortFiles_sorted l₁) hn1)
    (sorted_nodup_strict (sortFiles_sorted l₂) hn2)

/-- The incremental fold feeds exactly `relative path ++ bytes` for every
file, in sorted order. -/
lemma hashFed_flatten (l : List SrcFile) :
    hashFed l = ((sortFiles l).map (fun f => pathKey f.path ++ f.bytes)).flatten := by
  unfold hashFed
  generalize sortFiles l = m
  have : ∀ (m : List SrcFile) (acc : List Nat),
      m.foldl (fun acc f => (acc ++ pathKey f.path) ++ f.bytes) acc
        = acc ++ (m.map (fun f => pathKey f.path ++ f.bytes)).flatten := by
    intro m
    induction m with
    | nil => intro acc; simp
    | cons f fs ih =>
      intro acc
      rw [List.foldl_cons, ih]
      simp [List.append_assoc]
  simpa using this m []

/-- Hex digits are hex digits. -/
lemma hexChar_hex : ∀ n : Nat, n < 16 → isHexDigitChar (hexChar n) = true := by decide

/-- Serialized state words are bytes. -/
lemma word4_lt (x : Nat) : ∀ b ∈ word4 x, b < 256 := by
  intro b hb
  simp [word4] at hb
  rcases hb with rfl | rfl | rfl | rfl <;> exact Nat.mod_lt _ (by omega)

/-- Every digest entry is a byte. -/
lemma digestBytes_lt (st : Sha256State) : ∀ b ∈ digestBytes st, b < 256 := by
  intro b hb
  simp only [digestBytes, List.mem_append] at hb
  rcases hb with ((((((h | h) | h) | h) | h) | h) | h) | h <;> exact word4_lt _ b h

/-- The digest is 32 bytes. -/
lemma digestBytes_length (st : Sha256State) : (digestBytes st).length = 32 := rfl

/-- Hex encoding yields two characters per byte. -/
lemma toHexChars_length (bs : List Nat) : (toHexChars bs).length = 2 * bs.length := by
  induction bs with
  | nil => rfl
  | cons b bs ih => simp [toHexChars] at ih ⊢; omega

/-- Hex encoding of bytes yields hex digits only. -/
lemma toHexChars_hex (bs : List Nat) (hb : ∀ b ∈ bs, b < 256) :
    ∀ c ∈ toHexChars bs, isHexDigitChar c = true := by
  induction bs with
  | nil => intro c hc; simp [toHexChars] at hc
  | cons b bs ih =>
    intro c hc
    have hb0 : b < 256 := hb b (by simp)
    simp [toHexChars] at hc
    rcases hc with rfl | rfl | hc
    · exact hexChar_hex _ (by omega)
    · exact hexChar_hex _ (by omega)
    · exact ih (fun x hx => hb x (by simp [hx])) c (by simpa [toHexChars] using hc)

/-- C5: `hashDirectory` is deterministic — any two enumeration orders of
the same files (paths distinct) produce the same tag; the tag is always
exactly 12 characters, all hexadecimal; and the hash is fed the files in
lexicographically sorted path order, each contributing its relative path
followed by its bytes. -/
theorem hashDirectory_spec :
    (∀ l₁ l₂ : List SrcFile, l₁.Perm l₂ → (l₁.map SrcFile.path).Nodup →
        hashDirectory l₁ = hashDirectory l₂) ∧
    (∀ l : List SrcFile, (hashDirectory l).length = 12 ∧
        ∀ c ∈ (hashDirectory l).toList, isHexDigitChar c = true) ∧
    (∀ l : List SrcFile, List.Pairwise fileLe (sortFiles l) ∧
        hashFed l = ((sortFiles l).map (fun f => pathKey f.path ++ f.bytes)).flatten) := by
  refine ⟨?_, ?_, fun l => ⟨sortFiles_sorted l, hashFed_flatten l⟩⟩
  · intro l₁ l₂ hp hn
    unfold hashDirectory hashFed
    rw [sortFiles_eq_of_perm hp hn]
  · intro l
    constructor
    · have hlen : ((toHexChars (digestBytes (sha256 (hashFed l)))).take 12).length = 12 := by
        rw [List.length_take, toHexChars_length, digestBytes_length]
        omega
      exact hlen
    · intro c hc
      have hc' : c ∈ (toHexChars (digestBytes (sha256 (hashFed l)))).take 12 := hc
      exact toHexChars_hex _ (digestBytes_lt _) c (List.take_subset _ _ hc')

/-- C5 (witness): two enumeration orders of the same two files hash to the
same tag. -/
theorem hashDirectory_spec_witness :
    hashDirectory [fileA, fileB] = hashDirectory [fileB, fileA] :=
  hashDirectory_spec.1 [fileA, fileB] [fileB, fileA] (by decide) (by decide)
